import Mathlib

/-!
Shallow embedding of the two yuzu UI source files under verification:
`src/yuzu/debugger/graphics/graphics_breakpoints.cpp` (the breakpoint list
model and dock widget) and `src/yuzu/install_dialog.cpp` (the install
confirmation dialog).  Qt rows and columns are `Int` (Qt uses C `int`; an
invalid `QModelIndex` reports row and column `-1`, and the code casts the raw
row to the `Event` enumeration without a bounds check).  `QVariant` values are
the inductive `QVar`.  Operations whose C++ execution would index the
breakpoint table out of bounds (undefined behaviour) return `none`; defined
executions return `some`.
-/

/-- Model of the `QVariant` values the two files produce or consume:
the null variant, a string, a `Qt::CheckState` (`check true` = `Qt::Checked`,
`check false` = `Qt::Unchecked`), a plain bool, and the highlight brush
`QBrush(QColor(0xE0, 0xE0, 0x10))`. -/
inductive QVar
  | null
  | str (s : String)
  | check (b : Bool)
  | boolv (b : Bool)
  | brush
  deriving DecidableEq, Repr

/-- The item roles `BreakPointModel::data` / `setData` dispatch on:
`Qt::DisplayRole`, `Qt::CheckStateRole`, `Qt::BackgroundRole`, the custom
`Role_IsEnabled`, and every other role (the `default` branch). -/
inductive ItemRole
  | display
  | checkState
  | background
  | isEnabled
  | other
  deriving DecidableEq, Repr

/-- `Tegra::DebugContext::Event::NumEvents`: the number of breakpoint event
kinds (`MaxwellCommandLoaded`, `MaxwellCommandProcessed`,
`IncomingPrimitiveBatch`, `FinishedPrimitiveBatch`). -/
def numEvents : Nat := 4

/-- The emulator-side `Tegra::DebugContext` as far as the UI code reads or
writes it: the per-event `breakpoints[i].enabled` flags (a table of
`NumEvents` booleans), `at_breakpoint`, and `active_breakpoint` (the event
ordinal, stored as the integer the code casts it to). -/
structure DebugContext where
  breakpoints : List Bool
  at_breakpoint : Bool
  active_breakpoint : Int
  deriving DecidableEq, Repr

/-- The `BreakPointModel` snapshot state: the two fields cached from the
context (`at_breakpoint`, `active_breakpoint`).  The weak context reference is
passed to each operation as an `Option DebugContext` — the result of
`context_weak.lock()` at that moment (`none` = the context has been torn
down). -/
structure BreakPointModel where
  at_breakpoint : Bool
  active_breakpoint : Int
  deriving DecidableEq, Repr

/-- The `BreakPointModel` constructor: caches `at_breakpoint` and
`active_breakpoint` from the context. -/
def BreakPointModel.construct (c : DebugContext) : BreakPointModel :=
  { at_breakpoint := c.at_breakpoint, active_breakpoint := c.active_breakpoint }

/-- The `Role_IsEnabled` branch of `BreakPointModel::data`:
`context && context->breakpoints[(int)event].enabled`.  A null context
short-circuits to `false`; otherwise the table is indexed with the raw row,
which is undefined (`none`) out of range. -/
def roleIsEnabled (ctx? : Option DebugContext) (row : Int) : Option Bool :=
  match ctx? with
  | none => some false
  | some c => if 0 ≤ row then c.breakpoints.get? row.toNat else none

/-- The `Qt::DisplayRole` string table of `BreakPointModel::data` (the
`tr(...)` fallback texts); `map.find(event) != map.end() ? map.at(event) :
QString()` yields the empty string for a row outside the enumeration. -/
def eventDisplayText (row : Int) : String :=
  if row = 0 then "Maxwell command loaded"
  else if row = 1 then "Maxwell command processed"
  else if row = 2 then "Incoming primitive batch"
  else if row = 3 then "Finished primitive batch"
  else ""

/-- `BreakPointModel::data`.  `DisplayRole` answers only in column 0;
`CheckStateRole` answers only in column 0 and derives from `Role_IsEnabled`;
`BackgroundRole` ignores the column and compares the raw row with the cached
`active_breakpoint` under the cached `at_breakpoint`; `Role_IsEnabled` ignores
the column; every other role returns the null variant. -/
def BreakPointModel.data (m : BreakPointModel) (ctx? : Option DebugContext)
    (row col : Int) (role : ItemRole) : Option QVar :=
  match role with
  | ItemRole.display =>
      some (if col = 0 then QVar.str (eventDisplayText row) else QVar.null)
  | ItemRole.checkState =>
      if col = 0 then (roleIsEnabled ctx? row).map (fun b => QVar.check b)
      else some QVar.null
  | ItemRole.background =>
      some (if m.at_breakpoint && row == m.active_breakpoint then QVar.brush
            else QVar.null)
  | ItemRole.isEnabled => (roleIsEnabled ctx? row).map (fun b => QVar.boolv b)
  | ItemRole.other => some QVar.null

/-- `BreakPointModel::setData`.  Only `Qt::CheckStateRole` in column 0 with a
live context writes: it stores `value == Qt::Checked` into
`breakpoints[(int)event].enabled` (undefined out of range), emits
`dataChanged` for `(row, 0)` and returns `true`.  Every other case returns
`false` without emitting.  The result is the new context, the returned bool,
and the rows for which `dataChanged` was emitted. -/
def BreakPointModel.setData (ctx? : Option DebugContext) (row col : Int)
    (value : QVar) (role : ItemRole) :
    Option (Option DebugContext × Bool × List Int) :=
  match role with
  | ItemRole.checkState =>
      if col ≠ 0 then some (ctx?, false, [])
      else
        match ctx? with
        | none => some (none, false, [])
        | some c =>
            if 0 ≤ row ∧ row.toNat < c.breakpoints.length then
              some (some { c with
                      breakpoints :=
                        c.breakpoints.set row.toNat (value == QVar.check true) },
                    true, [row])
            else none
  | _ => some (ctx?, false, [])

/-- `BreakPointModel::OnBreakPointHit`: with a dead context, returns at once;
otherwise re-reads `active_breakpoint` then `at_breakpoint` from the context
and emits `dataChanged` for the row of the event argument. -/
def BreakPointModel.OnBreakPointHit (m : BreakPointModel)
    (ctx? : Option DebugContext) (event : Int) : BreakPointModel × List Int :=
  match ctx? with
  | none => (m, [])
  | some c =>
      ({ at_breakpoint := c.at_breakpoint,
         active_breakpoint := c.active_breakpoint }, [event])

/-- The three statements of the live-context body of
`BreakPointModel::OnResumed`, in source order: re-read `at_breakpoint` from
the context, emit `dataChanged` for the row of the (still old) cached
`active_breakpoint`, then re-read `active_breakpoint` from the context. -/
inductive ResumeStep
  | readAtBreakpoint
  | emitPrevActive
  | readActiveBreakpoint
  deriving DecidableEq, Repr

/-- The statement sequence of `BreakPointModel::OnResumed` after the context
lock succeeds, as written in the source. -/
def onResumedBody : List ResumeStep :=
  [ResumeStep.readAtBreakpoint, ResumeStep.emitPrevActive,
   ResumeStep.readActiveBreakpoint]

/-- Effect of one `OnResumed` statement on the model snapshot and the list of
rows for which `dataChanged` has been emitted so far. -/
def resumeStepRun (c : DebugContext) (st : BreakPointModel × List Int)
    (s : ResumeStep) : BreakPointModel × List Int :=
  match s with
  | ResumeStep.readAtBreakpoint =>
      ({ st.1 with at_breakpoint := c.at_breakpoint }, st.2)
  | ResumeStep.emitPrevActive => (st.1, st.2 ++ [st.1.active_breakpoint])
  | ResumeStep.readActiveBreakpoint =>
      ({ st.1 with active_breakpoint := c.active_breakpoint }, st.2)

/-- `BreakPointModel::OnResumed`: with a dead context, returns at once;
otherwise runs the three statements of `onResumedBody` in order. -/
def BreakPointModel.OnResumed (m : BreakPointModel)
    (ctx? : Option DebugContext) : BreakPointModel × List Int :=
  match ctx? with
  | none => (m, [])
  | some c => onResumedBody.foldl (resumeStepRun c) (m, [])

/-- Operations the widget can invoke on the debug context. -/
inductive ContextOp
  | resume
  deriving DecidableEq, Repr

/-- `GraphicsBreakPointsWidget::OnResumeRequested`:
`if (auto context = context_weak.lock()) context->Resume();` — the list of
context operations performed. -/
def GraphicsBreakPointsWidget.OnResumeRequested
    (ctx? : Option DebugContext) : List ContextOp :=
  match ctx? with
  | none => []
  | some _ => [ContextOp.resume]

/-- The Qt connection types that appear in the
`GraphicsBreakPointsWidget` constructor: the default `Qt::AutoConnection`
(no fifth `connect` argument) and `Qt::BlockingQueuedConnection`. -/
inductive ConnectionType
  | autoConnection
  | blockingQueuedConnection
  deriving DecidableEq, Repr

/-- The signals connected in the `GraphicsBreakPointsWidget` constructor. -/
inductive WidgetSignal
  | doubleClicked
  | resumeClicked
  | breakPointHit
  | resumed
  | breakPointsChanged
  deriving DecidableEq, Repr

/-- The receivers of those connections. -/
inductive SlotTarget
  | widget
  | model
  deriving DecidableEq, Repr

/-- The slots (or forwarded signal) those connections target. -/
inductive SlotName
  | onItemDoubleClicked
  | onResumeRequested
  | onBreakPointHitWidget
  | onResumedWidget
  | onBreakPointHitModel
  | onResumedModel
  | dataChangedSignal
  deriving DecidableEq, Repr

/-- One `connect(...)` call: signal, receiver, slot, connection type. -/
structure SignalSlotConnection where
  signal : WidgetSignal
  target : SlotTarget
  slot : SlotName
  ctype : ConnectionType
  deriving DecidableEq, Repr

/-- The seven `connect(...)` calls of the `GraphicsBreakPointsWidget`
constructor, in source order. -/
def widgetConnections : List SignalSlotConnection :=
  [{ signal := WidgetSignal.doubleClicked, target := SlotTarget.widget,
     slot := SlotName.onItemDoubleClicked,
     ctype := ConnectionType.autoConnection },
   { signal := WidgetSignal.resumeClicked, target := SlotTarget.widget,
     slot := SlotName.onResumeRequested,
     ctype := ConnectionType.autoConnection },
   { signal := WidgetSignal.breakPointHit, target := SlotTarget.widget,
     slot := SlotName.onBreakPointHitWidget,
     ctype := ConnectionType.blockingQueuedConnection },
   { signal := WidgetSignal.resumed, target := SlotTarget.widget,
     slot := SlotName.onResumedWidget,
     ctype := ConnectionType.autoConnection },
   { signal := WidgetSignal.breakPointHit, target := SlotTarget.model,
     slot := SlotName.onBreakPointHitModel,
     ctype := ConnectionType.blockingQueuedConnection },
   { signal := WidgetSignal.resumed, target := SlotTarget.model,
     slot := SlotName.onResumedModel,
     ctype := ConnectionType.autoConnection },
   { signal := WidgetSignal.breakPointsChanged, target := SlotTarget.model,
     slot := SlotName.dataChangedSignal,
     ctype := ConnectionType.autoConnection }]

/-- `GraphicsBreakPointsWidget::OnMaxwellBreakPointHit`, run on the emulator
thread, emits the `BreakPointHit` signal. -/
def GraphicsBreakPointsWidget.OnMaxwellBreakPointHitSignal : WidgetSignal :=
  WidgetSignal.breakPointHit

/-- `GraphicsBreakPointsWidget::OnMaxwellResume`, run on the emulator thread,
emits the `Resumed` signal. -/
def GraphicsBreakPointsWidget.OnMaxwellResumeSignal : WidgetSignal :=
  WidgetSignal.resumed

/-- Modelled from the spec: the delivery semantics of the Qt connection types
used here (the Qt event system itself is not part of the repository sources).
A `BlockingQueuedConnection` publication makes the publisher wait until every
attached handler has run to completion on the receiver thread; the default
`AutoConnection`, when the publisher is on the emulator thread and the
receiver lives on the UI thread, is a queued delivery from which the
publisher returns immediately. -/
def publisherWaitsForHandlers : ConnectionType → Bool
  | ConnectionType.blockingQueuedConnection => true
  | ConnectionType.autoConnection => false

/-- One row of the `QListWidget` in `InstallDialog`: the displayed text (the
basename), the `Qt::UserRole` payload (the full path), and the check state. -/
structure ListItem where
  text : String
  userData : String
  checked : Bool
  deriving DecidableEq, Repr

/-- `QFileInfo(file).fileName()`: the component after the last `/`. -/
def qFileName (path : String) : String := (path.splitOn "/").getLastD ""

/-- The item list built by the `InstallDialog` constructor: one item per input
path, in input order, displaying the basename, carrying the full path as
`Qt::UserRole` data, and starting checked. -/
def installDialogItems (files : List String) : List ListItem :=
  files.map (fun f =>
    { text := qFileName f, userData := f, checked := true })

/-- A user's subsequent check-state clicks, as the per-item check states they
leave behind (one boolean per item, in item order). -/
def setCheckStates (items : List ListItem) (bs : List Bool) : List ListItem :=
  List.zipWith (fun it b => { it with checked := b }) items bs

/-- `InstallDialog::GetFiles`: walks the items in index order and appends the
`Qt::UserRole` path of every checked item. -/
def InstallDialog.GetFiles (items : List ListItem) : List String :=
  items.foldl (fun acc it => if it.checked then acc ++ [it.userData] else acc) []

/-- Geometry of the `InstallDialog` file list widget: the minimum width set by
the constructor and the current widget width (determined later by the layout
system and the user, not by this code). -/
structure QListWidgetGeom where
  minimumWidth : Int
  width : Int
  deriving DecidableEq, Repr

/-- The constructor's geometry effect:
`file_list->setMinimumWidth((file_list->sizeHintForColumn(0) * 11) / 10)`
with the column size hint (the rendered width of the widest basename, a font
metric computed by Qt) taken as a parameter; the eventual widget width is the
layout's choice and is likewise a parameter. -/
def installDialogListGeom (sizeHintCol0 layoutWidth : Int) : QListWidgetGeom :=
  { minimumWidth := sizeHintCol0 * 11 / 10, width := layoutWidth }

/-- `InstallDialog::GetMinimumWidth`: `return file_list->width();`. -/
def InstallDialog.GetMinimumWidth (g : QListWidgetGeom) : Int := g.width

/-- Applying a sequence of `set_check_state` calls (`setData` with
`Qt::CheckStateRole` in column 0) to a live context: each pair is a row and
the checked value written.  `none` when some call's execution is undefined. -/
def runSetCheckStates (c : DebugContext) : List (Int × Bool) → Option DebugContext
  | [] => some c
  | w :: ws =>
      match BreakPointModel.setData (some c) w.1 0 (QVar.check w.2)
          ItemRole.checkState with
      | some (some c2, _, _) => runSetCheckStates c2 ws
      | _ => none

/-- The last value a write sequence leaves at row `k`, starting from the
default `d` (the row's initial enabled flag). -/
def lastWritten (ws : List (Int × Bool)) (k : Int) (d : Bool) : Bool :=
  ws.foldl (fun acc w => if w.1 = k then w.2 else acc) d

/-- Classifies a read result as the null variant or an unchecked/false-like
value (what the spec calls a "null/unchecked result"). -/
def isNullOrUnchecked : QVar → Bool
  | QVar.null => true
  | QVar.check false => true
  | QVar.boolv false => true
  | QVar.str "" => true
  | _ => false

theorem qvar_check_beq (b : Bool) : (QVar.check b == QVar.check true) = b := by
  cases b <;> rfl

theorem getFiles_eq_filter_map (items : List ListItem) :
    InstallDialog.GetFiles items
      = (items.filter (fun it => it.checked)).map (fun it => it.userData) := by
  have aux : ∀ (l : List ListItem) (acc : List String),
      l.foldl (fun acc it => if it.checked then acc ++ [it.userData] else acc) acc
        = acc ++ (l.filter (fun it => it.checked)).map (fun it => it.userData) := by
    intro l
    induction l with
    | nil => intro acc; simp
    | cons x xs ih =>
        intro acc
        by_cases hx : x.checked <;> simp [List.filter_cons, hx, ih]
  simpa [InstallDialog.GetFiles] using aux items []

/-- C1: every constructor connection carrying the signal emitted by
`OnMaxwellBreakPointHit` (the breakpoint-hit publication from the emulator
thread) uses `Qt::BlockingQueuedConnection`, so the publisher waits until all
attached UI-thread handlers (widget and model, two connections) have run;
every connection carrying the signal emitted by `OnMaxwellResume` uses the
default queued (non-blocking) delivery, so the publisher returns
immediately. -/
theorem c1_hit_blocking_resume_nonblocking :
    (∀ conn ∈ widgetConnections,
      (conn.signal = GraphicsBreakPointsWidget.OnMaxwellBreakPointHitSignal →
        publisherWaitsForHandlers conn.ctype = true) ∧
      (conn.signal = GraphicsBreakPointsWidget.OnMaxwellResumeSignal →
        publisherWaitsForHandlers conn.ctype = false)) ∧
    (widgetConnections.filter (fun conn =>
        conn.signal == GraphicsBreakPointsWidget.OnMaxwellBreakPointHitSignal)).length = 2 ∧
    (widgetConnections.filter (fun conn =>
        conn.signal == GraphicsBreakPointsWidget.OnMaxwellResumeSignal)).length = 2 := by
  decide

/-- Witness for C1: the hit connection to the widget handler is blocking. -/
theorem c1_hit_blocking_resume_nonblocking_witness :
    publisherWaitsForHandlers ConnectionType.blockingQueuedConnection = true :=
  (c1_hit_blocking_resume_nonblocking.1
    { signal := WidgetSignal.breakPointHit, target := SlotTarget.widget,
      slot := SlotName.onBreakPointHitWidget,
      ctype := ConnectionType.blockingQueuedConnection } (by decide)).1 rfl

/-- C3: a row reports the highlight brush for `Qt::BackgroundRole` exactly
when the cached `at_breakpoint` is true and the row equals the cached
`active_breakpoint`; hence no row is highlighted when `at_breakpoint` is
false, and exactly the single row `active_breakpoint` is highlighted when it
is true. -/
theorem c3_highlight_iff (m : BreakPointModel) (ctx? : Option DebugContext)
    (row : Int) :
    BreakPointModel.data m ctx? row 0 ItemRole.background = some QVar.brush ↔
      (m.at_breakpoint = true ∧ row = m.active_breakpoint) := by
  by_cases h1 : m.at_breakpoint <;> by_cases h2 : row = m.active_breakpoint <;>
    simp [BreakPointModel.data, h1, h2]

/-- C5: with a dead context (`context_weak.lock()` yields null), every
affected operation is a silent no-op: `setData` on the check-state role
returns false and emits nothing, a check-state read reports unchecked,
`OnResumeRequested` performs no context operation, and the hit/resume
handlers return without touching the snapshot or emitting. -/
theorem c5_dead_context_noop (m : BreakPointModel) (row : Int) (v : QVar) :
    BreakPointModel.setData none row 0 v ItemRole.checkState
      = some (none, false, []) ∧
    BreakPointModel.data m none row 0 ItemRole.checkState
      = some (QVar.check false) ∧
    GraphicsBreakPointsWidget.OnResumeRequested none = [] ∧
    BreakPointModel.OnBreakPointHit m none row = (m, []) ∧
    BreakPointModel.OnResumed m none = (m, []) := by
  refine ⟨?_, ?_, rfl, rfl, rfl⟩
  · simp [BreakPointModel.setData]
  · simp [BreakPointModel.data, roleIsEnabled]

/-- C4 counterexample: the index (row 0, column 1) is invalid per the claim
(column other than 0), yet reading it with the custom `Role_IsEnabled` role
against a live context whose first breakpoint is enabled returns the enabled
flag `true` — not a null/unchecked result — because `Role_IsEnabled` never
inspects the column. -/
theorem c4_invalid_index_counterexample :
    (BreakPointModel.data { at_breakpoint := false, active_breakpoint := 0 }
        (some { breakpoints := [true, false, false, false],
                at_breakpoint := false, active_breakpoint := 0 })
        0 1 ItemRole.isEnabled).map isNullOrUnchecked = some false := by
  decide

/-- C4 (amended): for any index whose column is not 0, the `DisplayRole` and
`CheckStateRole` reads return the null variant, and every write (`setData`,
any role, any value) returns false, emits nothing and leaves the context
unchanged.  (`BackgroundRole` and `Role_IsEnabled` ignore the column, and row
bounds are never checked by the code.) -/
theorem c4_nonzero_column_rejected (m : BreakPointModel)
    (ctx? : Option DebugContext) (row col : Int) (v : QVar) (role : ItemRole)
    (hcol : col ≠ 0) :
    BreakPointModel.data m ctx? row col ItemRole.display = some QVar.null ∧
    BreakPointModel.data m ctx? row col ItemRole.checkState = some QVar.null ∧
    BreakPointModel.setData ctx? row col v role = some (ctx?, false, []) := by
  refine ⟨by simp [BreakPointModel.data, hcol], by simp [BreakPointModel.data, hcol], ?_⟩
  cases role <;> simp [BreakPointModel.setData, hcol]

/-- Witness for the amended C4 at the concrete index (row 0, column 1). -/
theorem c4_nonzero_column_rejected_witness :
    BreakPointModel.data { at_breakpoint := false, active_breakpoint := 0 }
        none 0 1 ItemRole.display = some QVar.null ∧
    BreakPointModel.data { at_breakpoint := false, active_breakpoint := 0 }
        none 0 1 ItemRole.checkState = some QVar.null ∧
    BreakPointModel.setData none 0 1 QVar.null ItemRole.other
      = some (none, false, []) :=
  c4_nonzero_column_rejected { at_breakpoint := false, active_breakpoint := 0 }
    none 0 1 QVar.null ItemRole.other (by decide)

/-- C8 counterexample: the first statement of the live-context body of
`OnResumed` is the re-read of `at_breakpoint`, not the emit; running just
that first statement (context `at_breakpoint` false, cached snapshot
`at_breakpoint` true) already flips the cached flag while no `dataChanged`
has been emitted yet — so the handler does not "first emit and only then
re-read the snapshot". -/
theorem c8_emit_first_counterexample :
    onResumedBody.head? = some ResumeStep.readAtBreakpoint ∧
    ResumeStep.readAtBreakpoint ≠ ResumeStep.emitPrevActive ∧
    ((onResumedBody.take 1).foldl
        (resumeStepRun { breakpoints := [false, false, false, false],
                         at_breakpoint := false, active_breakpoint := 1 })
        ({ at_breakpoint := true, active_breakpoint := 1 }, [])).1.at_breakpoint
      = false ∧
    ((onResumedBody.take 1).foldl
        (resumeStepRun { breakpoints := [false, false, false, false],
                         at_breakpoint := false, active_breakpoint := 1 })
        ({ at_breakpoint := true, active_breakpoint := 1 }, [])).2 = [] := by
  decide

/-- C8 (amended): `OnResumed` re-reads `at_breakpoint` from the context,
then emits `changed(previous_active_row)`, then re-reads `active_breakpoint`;
because `at_breakpoint` is already updated when the emit happens, with the
context no longer at a breakpoint the repaint of any row (in particular the
previously highlighted one) already renders unhighlighted. -/
theorem c8_read_then_emit_then_read (m : BreakPointModel) (c : DebugContext)
    (row : Int) (h : c.at_breakpoint = false) :
    BreakPointModel.OnResumed m (some c)
      = ({ at_breakpoint := c.at_breakpoint,
           active_breakpoint := c.active_breakpoint }, [m.active_breakpoint]) ∧
    BreakPointModel.data
        ((onResumedBody.take 1).foldl (resumeStepRun c) (m, [])).1
        (some c) row 0 ItemRole.background = some QVar.null := by
  constructor
  · rfl
  · simp [BreakPointModel.data, onResumedBody, resumeStepRun, h]

/-- Witness for the amended C8 at a concrete snapshot and context. -/
theorem c8_read_then_emit_then_read_witness :
    BreakPointModel.OnResumed { at_breakpoint := true, active_breakpoint := 1 }
        (some { breakpoints := [false, false, false, false],
                at_breakpoint := false, active_breakpoint := 0 })
      = ({ at_breakpoint := false, active_breakpoint := 0 }, [1]) ∧
    BreakPointModel.data
        ((onResumedBody.take 1).foldl
          (resumeStepRun { breakpoints := [false, false, false, false],
                           at_breakpoint := false, active_breakpoint := 0 })
          ({ at_breakpoint := true, active_breakpoint := 1 }, [])).1
        (some { breakpoints := [false, false, false, false],
                at_breakpoint := false, active_breakpoint := 0 })
        1 0 ItemRole.background = some QVar.null :=
  c8_read_then_emit_then_read { at_breakpoint := true, active_breakpoint := 1 }
    { breakpoints := [false, false, false, false],
      at_breakpoint := false, active_breakpoint := 0 } 1 rfl

theorem runSetCheckStates_readback (c : DebugContext) (ws : List (Int × Bool))
    (k : Int) (b : Bool)
    (hlen : c.breakpoints.length = numEvents)
    (hws : ∀ w ∈ ws, 0 ≤ w.1 ∧ w.1.toNat < numEvents)
    (hk0 : 0 ≤ k) (hb : c.breakpoints.get? k.toNat = some b) :
    ∃ c2, runSetCheckStates c ws = some c2 ∧
      c2.breakpoints.length = numEvents ∧
      c2.breakpoints.get? k.toNat = some (lastWritten ws k b) := by
  induction ws generalizing c b with
  | nil => exact ⟨c, rfl, hlen, by simpa [lastWritten] using hb⟩
  | cons w ws ih =>
      obtain ⟨hw0, hwlt⟩ := hws w (by simp)
      have hcond : 0 ≤ w.1 ∧ w.1.toNat < c.breakpoints.length := by
        exact ⟨hw0, by rw [hlen]; exact hwlt⟩
      have hset : BreakPointModel.setData (some c) w.1 0 (QVar.check w.2)
          ItemRole.checkState
          = some (some { c with breakpoints := c.breakpoints.set w.1.toNat w.2 },
                  true, [w.1]) := by
        simp [BreakPointModel.setData, hcond, qvar_check_beq]
      have hrun : runSetCheckStates c (w :: ws)
          = runSetCheckStates { c with breakpoints := c.breakpoints.set w.1.toNat w.2 } ws := by
        rw [runSetCheckStates, hset]
      rw [hrun]
      have hlen2 : ({ c with breakpoints := c.breakpoints.set w.1.toNat w.2 } :
          DebugContext).breakpoints.length = numEvents := by
        simp [hlen]
      have hws2 : ∀ x ∈ ws, 0 ≤ x.1 ∧ x.1.toNat < numEvents := by
        intro x hx; exact hws x (by simp [hx])
      have hb2 : ({ c with breakpoints := c.breakpoints.set w.1.toNat w.2 } :
          DebugContext).breakpoints.get? k.toNat
          = some (if w.1 = k then w.2 else b) := by
        by_cases hwk : w.1 = k
        · have : w.1.toNat = k.toNat := by omega
          subst hwk
          simp only [if_pos rfl]
          rw [List.get?_eq_getElem?, List.getElem?_set_self]
          · simp
          · rw [hlen]; exact hwlt
        · have hne : w.1.toNat ≠ k.toNat := by omega
          simp only [if_neg hwk]
          rw [List.get?_eq_getElem?, List.getElem?_set_ne hne,
              ← List.get?_eq_getElem?, hb]
      have := ih { c with breakpoints := c.breakpoints.set w.1.toNat w.2 }
        (if w.1 = k then w.2 else b) hlen2 hws2 hb2
      simpa [lastWritten] using this

/-- C2: for every sequence of `set_check_state` calls on valid rows against a
live context, each call succeeds, and reading back the check state of any
valid row `k` afterwards yields the last value written to row `k`, or row
`k`'s initial enabled flag `b` if it was never written (so writes to one row
leave every other row's flag unchanged). -/
theorem c2_set_check_state_last_write_wins (c : DebugContext)
    (ws : List (Int × Bool)) (k : Int) (b : Bool) (m : BreakPointModel)
    (hlen : c.breakpoints.length = numEvents)
    (hws : ∀ w ∈ ws, 0 ≤ w.1 ∧ w.1.toNat < numEvents)
    (hk0 : 0 ≤ k) (hb : c.breakpoints.get? k.toNat = some b) :
    ∃ c2, runSetCheckStates c ws = some c2 ∧
      BreakPointModel.data m (some c2) k 0 ItemRole.checkState
        = some (QVar.check (lastWritten ws k b)) := by
  obtain ⟨c2, hrun, hlen2, hget⟩ :=
    runSetCheckStates_readback c ws k b hlen hws hk0 hb
  rw [List.get?_eq_getElem?] at hget
  exact ⟨c2, hrun, by simp [BreakPointModel.data, roleIsEnabled, hk0, hget]⟩

/-- Witness for C2: from the all-disabled table, write row 2 true, row 0
true, row 2 false, row 1 true; row 2 reads back unchecked (the last value
written there). -/
theorem c2_set_check_state_last_write_wins_witness :
    ∃ c2, runSetCheckStates
        { breakpoints := [false, false, false, false],
          at_breakpoint := false, active_breakpoint := 0 }
        [(2, true), (0, true), (2, false), (1, true)] = some c2 ∧
      BreakPointModel.data { at_breakpoint := false, active_breakpoint := 0 }
          (some c2) 2 0 ItemRole.checkState
        = some (QVar.check (lastWritten [(2, true), (0, true), (2, false), (1, true)] 2 false)) :=
  c2_set_check_state_last_write_wins
    { breakpoints := [false, false, false, false],
      at_breakpoint := false, active_breakpoint := 0 }
    [(2, true), (0, true), (2, false), (1, true)] 2 false
    { at_breakpoint := false, active_breakpoint := 0 }
    (by decide) (by decide) (by decide) (by decide)

theorem setCheckStates_getFiles (files : List String) (bs : List Bool) :
    InstallDialog.GetFiles (setCheckStates (installDialogItems files) bs)
      = ((files.zip bs).filter (fun p => p.2)).map (fun p => p.1) := by
  rw [getFiles_eq_filter_map]
  induction files generalizing bs with
  | nil => simp [installDialogItems, setCheckStates]
  | cons f fs ih =>
      cases bs with
      | nil => simp [installDialogItems, setCheckStates]
      | cons b bt =>
          by_cases hb : b <;>
            simp [installDialogItems, setCheckStates, List.filter_cons, hb,
              ← ih bt]

/-- C6: for every input path list and every assignment of check states to its
items, `GetFiles` returns exactly the paths whose item is checked, in input
order, and the result is a sublist (order-preserving subsequence) of the
constructor's input list. -/
theorem c6_get_files_checked_subsequence (files : List String)
    (bs : List Bool) (h : bs.length = files.length) :
    InstallDialog.GetFiles (setCheckStates (installDialogItems files) bs)
      = ((files.zip bs).filter (fun p => p.2)).map (fun p => p.1) ∧
    (InstallDialog.GetFiles
        (setCheckStates (installDialogItems files) bs)).Sublist files := by
  refine ⟨setCheckStates_getFiles files bs, ?_⟩
  rw [setCheckStates_getFiles files bs]
  have hsub : ((files.zip bs).filter (fun p => p.2)).Sublist (files.zip bs) :=
    List.filter_sublist _
  have hmap := hsub.map (fun p : String × Bool => p.1)
  have hfst : (files.zip bs).map (fun p : String × Bool => p.1) = files := by
    have := List.map_fst_zip files bs (by omega)
    simpa using this
  rwa [hfst] at hmap

/-- Witness for C6: the spec's install-accept scenario — uncheck the middle
of three files and read back the first and third in order. -/
theorem c6_get_files_checked_subsequence_witness :
    InstallDialog.GetFiles
        (setCheckStates (installDialogItems ["/a/x.nsp", "/b/y.nsp", "/c/z.nsp"])
          [true, false, true])
      = ["/a/x.nsp", "/c/z.nsp"] :=
  (c6_get_files_checked_subsequence ["/a/x.nsp", "/b/y.nsp", "/c/z.nsp"]
    [true, false, true] (by decide)).1.trans (by decide)

/-- C7: immediately after construction every item of the install dialog is
checked, and accepting without any change returns the entire input list
unchanged. -/
theorem c7_initial_all_checked_identity (files : List String) :
    (∀ it ∈ installDialogItems files, it.checked = true) ∧
    InstallDialog.GetFiles (installDialogItems files) = files := by
  constructor
  · intro it hit
    simp only [installDialogItems, List.mem_map] at hit
    obtain ⟨f, hf, rfl⟩ := hit
    rfl
  · rw [getFiles_eq_filter_map]
    induction files with
    | nil => rfl
    | cons f fs ih => simpa [installDialogItems, List.filter_cons] using ih

/-- C10: `GetFiles` is total (a plain function of the current item states,
with no accept-precondition): at any time it returns exactly the
`Qt::UserRole` paths of the currently checked items, in item order, and that
result is a subsequence of all the items' paths. -/
theorem c10_get_files_total_current_state (items : List ListItem) :
    InstallDialog.GetFiles items
      = (items.filter (fun it => it.checked)).map (fun it => it.userData) ∧
    (InstallDialog.GetFiles items).Sublist
      (items.map (fun it => it.userData)) := by
  refine ⟨getFiles_eq_filter_map items, ?_⟩
  rw [getFiles_eq_filter_map items]
  exact (List.filter_sublist _).map _

/-- C9 counterexample: the constructor stores `(sizeHint * 11) / 10` as the
list's minimum width (110 for a hint of 100), but `GetMinimumWidth` returns
the widget's current width — e.g. 200 once the layout has grown the list —
which differs from the stored minimum. -/
theorem c9_get_minimum_width_counterexample :
    (installDialogListGeom 100 200).minimumWidth = 110 ∧
    InstallDialog.GetMinimumWidth (installDialogListGeom 100 200) = 200 ∧
    ((200 : Int) = 110 → False) := by
  decide

/-- C9 (amended): the constructor sets the list's minimum width to
`sizeHint * 11 / 10` in integer arithmetic (roughly 110% of the rendered
width of the widest basename), while the `GetMinimumWidth` accessor returns
the file list's current width, not the stored minimum. -/
theorem c9_minimum_width_and_accessor (hint w : Int) :
    (installDialogListGeom hint w).minimumWidth = hint * 11 / 10 ∧
    InstallDialog.GetMinimumWidth (installDialogListGeom hint w) = w :=
  ⟨rfl, rfl⟩
